import Mathlib

/-!
Verification of the fitness-tracker dashboard (`webapp.py`).

The data model mirrors the five table shapes loaded by the data-access
functions, and the aggregation definitions mirror, operation by operation,
the pandas expressions of the view functions (`show_dashboard`,
`show_weight_tracking`, `show_workout_log`, `show_goals`).  Dates are
abstracted as natural-number ordinals, SQL numerics as `ℚ`/`ℤ`.
-/

/-- Row shape of `load_weight_data`: `SELECT weight_kg, recorded_date, notes`. -/
structure WeightRecord where
  weight_kg : ℚ
  recorded_date : ℕ
  notes : String
deriving DecidableEq, Repr

/-- Row shape of `load_workout_data`: workout_sessions joined with exercise_types. -/
structure WorkoutSession where
  workout_date : ℕ
  exercise_name : String
  duration_minutes : ℤ
  calories_burned : ℤ
  intensity_level : String
  category : String
deriving DecidableEq, Repr

/-- Row shape of `load_goals`: `SELECT goal_type, target_value, current_value, target_date, status`. -/
structure Goal where
  goal_type : String
  target_value : ℚ
  current_value : ℚ
  target_date : Option ℕ
  status : String
deriving DecidableEq, Repr

/-- Row shape of `load_exercise_types`. -/
structure ExerciseType where
  id : ℕ
  name : String
  category : String
  calories_per_minute : ℚ
deriving DecidableEq, Repr

/-- Row shape of `load_users`. -/
structure User where
  id : ℕ
  username : String
  email : String
  age : ℕ
  height_cm : ℚ
deriving DecidableEq, Repr

/-- Stored row of the `weight_records` table (before the user filter). -/
structure WeightRow where
  user_id : ℕ
  weight_kg : ℚ
  recorded_date : ℕ
  notes : String
deriving DecidableEq, Repr

/-- Stored row of the `workout_sessions` table (before the join). -/
structure WorkoutRow where
  user_id : ℕ
  exercise_type_id : ℕ
  duration_minutes : ℤ
  calories_burned : ℤ
  intensity_level : String
  workout_date : ℕ
  notes : String
deriving DecidableEq, Repr

/-- State of the PostgreSQL database behind `psycopg2.connect`.  The flag
`insertFails` models an exception raised by `cursor.execute` on INSERT,
which the code catches generically. -/
structure Database where
  users : List User
  weight_records : List WeightRow
  workout_sessions : List WorkoutRow
  exercise_types : List ExerciseType
  goals : List (ℕ × Goal)
  insertFails : Bool
deriving Repr

/-- Embeds `get_db_connection`: yields the connection when the server is
reachable, `none` (Python `None`) when `psycopg2.connect` raises. -/
def get_db_connection (server : Option Database) : Option Database := server

/-- Embeds `load_users`: empty DataFrame on connection failure, else the users table. -/
def load_users (conn : Option Database) : List User :=
  match conn with
  | none => []
  | some db => db.users

/-- Embeds `load_weight_data`: empty DataFrame on connection failure, else the
user's weight rows `ORDER BY recorded_date` (ascending). -/
def load_weight_data (conn : Option Database) (user_id : ℕ) : List WeightRecord :=
  match conn with
  | none => []
  | some db =>
      ((db.weight_records.filter (fun r => decide (r.user_id = user_id))).map
        (fun r => { weight_kg := r.weight_kg, recorded_date := r.recorded_date,
                    notes := r.notes : WeightRecord })).insertionSort
        (fun a b => a.recorded_date ≤ b.recorded_date)

/-- Embeds `load_workout_data`: empty DataFrame on connection failure, else the
user's workout rows joined with `exercise_types`, `ORDER BY workout_date DESC`. -/
def load_workout_data (conn : Option Database) (user_id : ℕ) : List WorkoutSession :=
  match conn with
  | none => []
  | some db =>
      ((db.workout_sessions.filter (fun w => decide (w.user_id = user_id))).filterMap
        (fun w => (db.exercise_types.find? (fun et => decide (et.id = w.exercise_type_id))).map
          (fun et => { workout_date := w.workout_date, exercise_name := et.name,
                       duration_minutes := w.duration_minutes,
                       calories_burned := w.calories_burned,
                       intensity_level := w.intensity_level,
                       category := et.category : WorkoutSession }))).insertionSort
        (fun a b => b.workout_date ≤ a.workout_date)

/-- Embeds `load_goals`: empty DataFrame on connection failure, else the user's goals. -/
def load_goals (conn : Option Database) (user_id : ℕ) : List Goal :=
  match conn with
  | none => []
  | some db => (db.goals.filter (fun g => decide (g.1 = user_id))).map (·.2)

/-- Embeds `load_exercise_types`: empty DataFrame on connection failure, else the catalog. -/
def load_exercise_types (conn : Option Database) : List ExerciseType :=
  match conn with
  | none => []
  | some db => db.exercise_types

/-- Embeds `add_weight_record`: `False` when the connection is `None`; `False`
(leaving the table unchanged) when the INSERT raises; otherwise appends the
row and returns `True`. -/
def add_weight_record (conn : Option Database) (user_id : ℕ) (weight : ℚ)
    (date_recorded : ℕ) (notes : String) : Option Database × Bool :=
  match conn with
  | none => (none, false)
  | some db =>
      if db.insertFails then (some db, false)
      else
        (some { db with weight_records :=
          db.weight_records ++ [{ user_id := user_id, weight_kg := weight,
                                  recorded_date := date_recorded, notes := notes }] },
         true)

/-- Embeds `add_workout_session`: `False` when the connection is `None`; `False`
when the INSERT raises; otherwise appends the row and returns `True`. -/
def add_workout_session (conn : Option Database) (user_id : ℕ) (exercise_type_id : ℕ)
    (duration : ℤ) (calories : ℤ) (intensity : String) (workout_date : ℕ)
    (notes : String) : Option Database × Bool :=
  match conn with
  | none => (none, false)
  | some db =>
      if db.insertFails then (some db, false)
      else
        (some { db with workout_sessions :=
          db.workout_sessions ++ [{ user_id := user_id, exercise_type_id := exercise_type_id,
                                    duration_minutes := duration, calories_burned := calories,
                                    intensity_level := intensity, workout_date := workout_date,
                                    notes := notes }] },
         true)

/-- Embeds the dashboard metric `weight_df.iloc[-1]["weight_kg"]` guarded by
`weight_df.empty`; `none` stands for the "No data" branch. -/
def currentWeight (records : List WeightRecord) : Option ℚ :=
  records.getLast?.map (·.weight_kg)

/-- Embeds `weight_df.iloc[-1]["weight_kg"] - weight_df.iloc[0]["weight_kg"]`,
computed only in the non-empty branch of `show_weight_tracking`; `none` stands
for the "No weight data available" branch. -/
def weightNetChange (records : List WeightRecord) : Option ℚ :=
  match records.head?, records.getLast? with
  | some f, some l => some (l.weight_kg - f.weight_kg)
  | _, _ => none

/-- Embeds `weight_df["weight_kg"].min()` in the non-empty branch of
`show_weight_tracking`. -/
def minWeight (records : List WeightRecord) : Option ℚ :=
  match records with
  | [] => none
  | r :: rs => some (rs.foldl (fun m s => min m s.weight_kg) r.weight_kg)

/-- Embeds `weight_df["weight_kg"].max()` in the non-empty branch of
`show_weight_tracking`. -/
def maxWeight (records : List WeightRecord) : Option ℚ :=
  match records with
  | [] => none
  | r :: rs => some (rs.foldl (fun m s => max m s.weight_kg) r.weight_kg)

/-- Embeds the dashboard metric `len(workout_df)` (0 in the empty branch). -/
def totalWorkouts (sessions : List WorkoutSession) : ℕ := sessions.length

/-- Embeds the dashboard metric `workout_df["calories_burned"].sum()` (0 in the
empty branch). -/
def totalCaloriesBurned (sessions : List WorkoutSession) : ℤ :=
  (sessions.map (·.calories_burned)).sum

/-- Calories summed over the sessions of one exercise name: one group of
`workout_df.groupby("exercise_name")["calories_burned"].sum()`. -/
def sumCaloriesFor (sessions : List WorkoutSession) (name : String) : ℤ :=
  ((sessions.filter (fun s => decide (s.exercise_name = name))).map (·.calories_burned)).sum

/-- Embeds `workout_df.groupby("exercise_name")["calories_burned"].sum()
.sort_values(ascending=True)`: the distinct exercise names, each paired with
its summed calories, sorted ascending by the sum.  The alphabetical key order
produced by `groupby` is overwritten by `sort_values` except among equal sums,
where pandas' default unstable quicksort leaves the order unspecified, so the
pre-sort of the keys is not modelled. -/
def caloriesByExercise (sessions : List WorkoutSession) : List (String × ℤ) :=
  ((sessions.map (·.exercise_name)).dedup.map
    (fun n => (n, sumCaloriesFor sessions n))).insertionSort (fun p q => p.2 ≤ q.2)

/-- Duration summed over the sessions of one date: one group of
`workout_df.groupby("workout_date")["duration_minutes"].sum()`. -/
def sumDurationFor (sessions : List WorkoutSession) (d : ℕ) : ℤ :=
  ((sessions.filter (fun s => decide (s.workout_date = d))).map (·.duration_minutes)).sum

/-- Embeds `workout_df.groupby("workout_date")["duration_minutes"].sum()
.reset_index()`: pandas groupby yields the keys sorted ascending. -/
def durationByDay (sessions : List WorkoutSession) : List (ℕ × ℤ) :=
  ((sessions.map (·.workout_date)).dedup.insertionSort (· ≤ ·)).map
    (fun d => (d, sumDurationFor sessions d))

/-- Embeds the dashboard metric `len(goals_df[goals_df["status"] == "active"])`. -/
def activeGoalCount (goals : List Goal) : ℕ :=
  (goals.filter (fun g => decide (g.status = "active"))).length

/-- Division that faults (returns `none`) on a zero divisor, modelling Python's
`ZeroDivisionError`. -/
def checkedDiv (a b : ℚ) : Option ℚ :=
  if b = 0 then none else some (a / b)

/-- Embeds the `progress` expression of `show_goals`:
`(current_value / target_value) * 100 if target_value > 0 else 0`. -/
def goalProgressPercent (g : Goal) : ℚ :=
  if g.target_value > 0 then g.current_value / g.target_value * 100 else 0

/-- Same expression with the division made fallible, to state that the
`target_value > 0` guard keeps the division-by-zero fault unreachable. -/
def goalProgressPercentChecked (g : Goal) : Option ℚ :=
  if g.target_value > 0 then (checkedDiv g.current_value g.target_value).map (· * 100)
  else some 0

/-- Embeds the value handed to the widget: `st.progress(min(progress / 100, 1.0))`. -/
def goalProgressDisplay (g : Goal) : ℚ :=
  min (goalProgressPercent g / 100) 1

/-!
Helper instances and lemmas.
-/

instance : IsTotal (String × ℤ) (fun p q => p.2 ≤ q.2) :=
  ⟨fun a b => Int.le_total a.2 b.2⟩

instance : IsTrans (String × ℤ) (fun p q => p.2 ≤ q.2) :=
  ⟨fun _ _ _ h h' => le_trans h h'⟩

/-- Folding `min` over a list never exceeds the initial accumulator. -/
theorem foldl_min_le_init {α : Type*} [LinearOrder α] (l : List α) (a : α) :
    l.foldl min a ≤ a := by
  induction l generalizing a with
  | nil => exact le_refl a
  | cons x xs ih => exact le_trans (ih (min a x)) (min_le_left a x)

/-- Folding `min` over a list is a lower bound of its members. -/
theorem foldl_min_le_mem {α : Type*} [LinearOrder α] {x : α} :
    ∀ (l : List α) (a : α), x ∈ l → l.foldl min a ≤ x := by
  intro l
  induction l with
  | nil => intro a hx; cases hx
  | cons y ys ih =>
    intro a hx
    rcases List.mem_cons.mp hx with rfl | h
    · exact le_trans (foldl_min_le_init ys (min a x)) (min_le_right a x)
    · exact ih (min a y) h

/-- Folding `min` over a list yields the accumulator or one of the members. -/
theorem foldl_min_mem {α : Type*} [LinearOrder α] :
    ∀ (l : List α) (a : α), l.foldl min a = a ∨ l.foldl min a ∈ l := by
  intro l
  induction l with
  | nil => intro a; exact Or.inl rfl
  | cons y ys ih =>
    intro a
    rcases ih (min a y) with h | h
    · rcases min_choice a y with he | he
      · left; rw [List.foldl_cons, h, he]
      · right; rw [List.foldl_cons, h, he]; exact List.mem_cons_self y ys
    · right; rw [List.foldl_cons]; exact List.mem_cons_of_mem y h

/-- Folding `max` over a list is at least the initial accumulator. -/
theorem init_le_foldl_max {α : Type*} [LinearOrder α] (l : List α) (a : α) :
    a ≤ l.foldl max a := by
  induction l generalizing a with
  | nil => exact le_refl a
  | cons x xs ih => exact le_trans (le_max_left a x) (ih (max a x))

/-- Folding `max` over a list is an upper bound of its members. -/
theorem mem_le_foldl_max {α : Type*} [LinearOrder α] {x : α} :
    ∀ (l : List α) (a : α), x ∈ l → x ≤ l.foldl max a := by
  intro l
  induction l with
  | nil => intro a hx; cases hx
  | cons y ys ih =>
    intro a hx
    rcases List.mem_cons.mp hx with rfl | h
    · exact le_trans (le_max_right a x) (init_le_foldl_max ys (max a x))
    · exact ih (max a y) h

/-- Folding `max` over a list yields the accumulator or one of the members. -/
theorem foldl_max_mem {α : Type*} [LinearOrder α] :
    ∀ (l : List α) (a : α), l.foldl max a = a ∨ l.foldl max a ∈ l := by
  intro l
  induction l with
  | nil => intro a; exact Or.inl rfl
  | cons y ys ih =>
    intro a
    rcases ih (max a y) with h | h
    · rcases max_choice a y with he | he
      · left; rw [List.foldl_cons, h, he]
      · right; rw [List.foldl_cons, h, he]; exact List.mem_cons_self y ys
    · right; rw [List.foldl_cons]; exact List.mem_cons_of_mem y h

/-- Splitting the total calories along one exercise name. -/
theorem totalCalories_filter_split (sessions : List WorkoutSession) (k : String) :
    totalCaloriesBurned sessions =
      sumCaloriesFor sessions k +
        totalCaloriesBurned
          (sessions.filter (fun s => !decide (s.exercise_name = k))) := by
  have hsum :=
    (((List.filter_append_perm (fun s => decide (s.exercise_name = k)) sessions).map
      (·.calories_burned)).sum_eq)
  rw [List.map_append, List.sum_append] at hsum
  rw [totalCaloriesBurned, ← hsum]
  rfl

/-- Summing the per-name fiber sums over a duplicate-free list of names that
covers every session recovers the total. -/
theorem sum_fibers_eq_total :
    ∀ (keys : List String) (sessions : List WorkoutSession), keys.Nodup →
      (∀ s ∈ sessions, s.exercise_name ∈ keys) →
      (keys.map (sumCaloriesFor sessions)).sum = totalCaloriesBurned sessions := by
  intro keys
  induction keys with
  | nil =>
    intro sessions _ hcov
    have hnil : sessions = [] :=
      List.eq_nil_iff_forall_not_mem.mpr
        (fun s hs => absurd (hcov s hs) (List.not_mem_nil _))
    rw [hnil]
    rfl
  | cons k ks ih =>
    intro sessions hnd hcov
    rw [List.map_cons, List.sum_cons, totalCalories_filter_split sessions k]
    congr 1
    have hk : k ∉ ks := (List.nodup_cons.mp hnd).1
    have hmap : ks.map (sumCaloriesFor sessions)
        = ks.map (sumCaloriesFor
            (sessions.filter (fun s => !decide (s.exercise_name = k)))) := by
      apply List.map_congr_left
      intro k' hk'
      have hne : k' ≠ k := fun h => hk (h ▸ hk')
      have hfil : (sessions.filter (fun s => !decide (s.exercise_name = k))).filter
            (fun s => decide (s.exercise_name = k'))
          = sessions.filter (fun s => decide (s.exercise_name = k')) := by
        rw [List.filter_filter]
        apply List.filter_congr
        intro s _
        by_cases hs : s.exercise_name = k'
        · simp [hs, hne]
        · simp [hs]
      rw [sumCaloriesFor, sumCaloriesFor, hfil]
    rw [hmap]
    apply ih
    · exact (List.nodup_cons.mp hnd).2
    · intro s hs
      have hmem := List.mem_of_mem_filter hs
      have hcond := List.of_mem_filter hs
      rcases List.mem_cons.mp (hcov s hmem) with h | h
      · rw [h] at hcond; simp at hcond
      · exact h

/-!
Claim theorems.
-/

/-- Claim C1: for every weight table (in particular every one sorted
ascending by date), the displayed net change is the last record's weight
minus the first record's weight; for the two-record table
[70.0 on day 1, 68.5 on day 2] it is -1.5; and with fewer than 2 records it
is the sentinel `none` (empty table) or zero (singleton table). -/
theorem weightNetChange_spec (records : List WeightRecord) :
    (∀ f l, records.head? = some f → records.getLast? = some l →
        weightNetChange records = some (l.weight_kg - f.weight_kg)) ∧
    (records.length < 2 →
        weightNetChange records = none ∨ weightNetChange records = some 0) ∧
    weightNetChange [{ weight_kg := 70, recorded_date := 1, notes := "" },
                     { weight_kg := 68.5, recorded_date := 2, notes := "" }]
      = some (-1.5) := by
  refine ⟨?_, ?_, ?_⟩
  · intro f l hf hl
    rw [weightNetChange, hf, hl]
  · intro hlen
    match records with
    | [] => exact Or.inl rfl
    | [r] =>
      right
      show some (r.weight_kg - r.weight_kg) = some 0
      rw [sub_self]
    | a :: b :: rs => simp at hlen; omega
  · show some ((68.5 : ℚ) - 70) = some (-1.5)
    norm_num

/-- Claim C1 witness: on the singleton table the first conjunct applies with
the record as both first and last row, giving a zero change. -/
theorem weightNetChange_spec_witness :
    weightNetChange [({ weight_kg := 70, recorded_date := 1, notes := "" } : WeightRecord)]
      = some ((70 : ℚ) - 70) :=
  (weightNetChange_spec
      [({ weight_kg := 70, recorded_date := 1, notes := "" } : WeightRecord)]).1
    { weight_kg := 70, recorded_date := 1, notes := "" }
    { weight_kg := 70, recorded_date := 1, notes := "" } rfl rfl

/-- Claim C2: on a non-empty weight table the minimum and the maximum weight
are both attained by some record, and every record's weight lies between
them. -/
theorem weightExtremes_spec (records : List WeightRecord) (hne : records ≠ []) :
    ∃ mi ma, minWeight records = some mi ∧ maxWeight records = some ma ∧
      (∃ r ∈ records, r.weight_kg = mi) ∧ (∃ r ∈ records, r.weight_kg = ma) ∧
      ∀ r ∈ records, mi ≤ r.weight_kg ∧ r.weight_kg ≤ ma := by
  match records with
  | [] => exact absurd rfl hne
  | r :: rs =>
    have hmin : rs.foldl (fun m s => min m s.weight_kg) r.weight_kg
        = (rs.map (·.weight_kg)).foldl min r.weight_kg :=
      (List.foldl_map _ _ _ _).symm
    have hmax : rs.foldl (fun m s => max m s.weight_kg) r.weight_kg
        = (rs.map (·.weight_kg)).foldl max r.weight_kg :=
      (List.foldl_map _ _ _ _).symm
    refine ⟨_, _, rfl, rfl, ?_, ?_, ?_⟩
    · rw [hmin]
      rcases foldl_min_mem (rs.map (·.weight_kg)) r.weight_kg with h | h
      · exact ⟨r, List.mem_cons_self r rs, h.symm⟩
      · rcases List.mem_map.mp h with ⟨s, hs, hw⟩
        exact ⟨s, List.mem_cons_of_mem r hs, hw⟩
    · rw [hmax]
      rcases foldl_max_mem (rs.map (·.weight_kg)) r.weight_kg with h | h
      · exact ⟨r, List.mem_cons_self r rs, h.symm⟩
      · rcases List.mem_map.mp h with ⟨s, hs, hw⟩
        exact ⟨s, List.mem_cons_of_mem r hs, hw⟩
    · intro s hs
      rw [hmin, hmax]
      rcases List.mem_cons.mp hs with rfl | h
      · exact ⟨foldl_min_le_init _ _, init_le_foldl_max _ _⟩
      · exact ⟨foldl_min_le_mem _ _ (List.mem_map.mpr ⟨s, h, rfl⟩),
               mem_le_foldl_max _ _ (List.mem_map.mpr ⟨s, h, rfl⟩)⟩

/-- Claim C2 witness: the singleton table with one 70 kg record is non-empty,
so both extremes exist, are attained, and bound every record. -/
theorem weightExtremes_spec_witness :
    ∃ mi ma,
      minWeight [({ weight_kg := 70, recorded_date := 1, notes := "" } : WeightRecord)]
        = some mi ∧
      maxWeight [({ weight_kg := 70, recorded_date := 1, notes := "" } : WeightRecord)]
        = some ma ∧
      (∃ r ∈ [({ weight_kg := 70, recorded_date := 1, notes := "" } : WeightRecord)],
        r.weight_kg = mi) ∧
      (∃ r ∈ [({ weight_kg := 70, recorded_date := 1, notes := "" } : WeightRecord)],
        r.weight_kg = ma) ∧
      ∀ r ∈ [({ weight_kg := 70, recorded_date := 1, notes := "" } : WeightRecord)],
        mi ≤ r.weight_kg ∧ r.weight_kg ≤ ma :=
  weightExtremes_spec _ (by simp)

/-- Claim C3: the goal progress percent is current over target times 100 when
the target is positive and 0 otherwise; the guard makes the division-by-zero
fault unreachable (the checked variant never returns `none`), and the goal
with current 50 and target 0 yields 0. -/
theorem goalProgressPercent_spec (g : Goal) :
    goalProgressPercentChecked g = some (goalProgressPercent g) ∧
    (0 < g.target_value →
        goalProgressPercent g = g.current_value / g.target_value * 100) ∧
    (¬ 0 < g.target_value → goalProgressPercent g = 0) ∧
    goalProgressPercent { goal_type := "weight_loss", target_value := 0,
                          current_value := 50, target_date := none,
                          status := "active" } = 0 := by
  refine ⟨?_, ?_, ?_, rfl⟩
  · by_cases h : g.target_value > 0
    · simp [goalProgressPercentChecked, goalProgressPercent, checkedDiv, h, ne_of_gt h]
    · simp [goalProgressPercentChecked, goalProgressPercent, h]
  · intro h
    simp [goalProgressPercent, h]
  · intro h
    simp [goalProgressPercent, h]

/-- Claim C3 witness: a goal with current 50 and target 100 has a positive
target, so the percent is the division formula. -/
theorem goalProgressPercent_spec_witness :
    goalProgressPercent ({ goal_type := "g", target_value := 100,
                           current_value := 50, target_date := none,
                           status := "active" } : Goal) = (50 : ℚ) / 100 * 100 :=
  (goalProgressPercent_spec _).2.1 (by norm_num)

/-- Claim C4 counterexample: the widget value is `min(progress / 100, 1.0)`,
clamped only from above, so for a goal with current value -50 and target 100
the displayed value is negative, not in [0, 1]. -/
theorem goalProgressDisplay_negative :
    goalProgressDisplay { goal_type := "weight_loss", target_value := 100,
                          current_value := -50, target_date := none,
                          status := "active" } < 0 := by
  have h : goalProgressPercent { goal_type := "weight_loss", target_value := 100,
                                 current_value := -50, target_date := none,
                                 status := "active" } / 100 < 0 := by
    norm_num [goalProgressPercent]
  exact lt_of_le_of_lt (min_le_left _ _) h

/-- Claim C4 amended: the value handed to the widget is clamped from above at
1 only; it always lies in (-∞, 1], and it lies in [0, 1] whenever the goal's
current value is non-negative (negative current values with a positive target
produce a negative display value). -/
theorem goalProgressDisplay_spec (g : Goal) :
    goalProgressDisplay g ≤ 1 ∧
    (0 ≤ g.current_value → 0 ≤ goalProgressDisplay g) := by
  constructor
  · exact min_le_right _ _
  · intro hc
    apply le_min _ zero_le_one
    have hp : 0 ≤ goalProgressPercent g := by
      rw [goalProgressPercent]
      split
      · have ht : (0 : ℚ) ≤ g.target_value := le_of_lt (by assumption)
        exact mul_nonneg (div_nonneg hc ht) (by norm_num)
      · exact le_refl 0
    positivity

/-- Claim C4 amended witness: a goal with current 50 and target 100 has a
non-negative current value, so its display value is non-negative. -/
theorem goalProgressDisplay_spec_witness :
    0 ≤ goalProgressDisplay ({ goal_type := "g", target_value := 100,
                               current_value := 50, target_date := none,
                               status := "active" } : Goal) :=
  (goalProgressDisplay_spec _).2 (by norm_num)

/-- Claim C6: the dashboard's current weight is the weight of the last record
of the table loaded in ascending date order, whose date is maximal; on the
empty table it is the "No data" sentinel `none`. -/
theorem currentWeight_spec (records : List WeightRecord)
    (hs : records.Pairwise (fun a b => a.recorded_date ≤ b.recorded_date)) :
    (records = [] → currentWeight records = none) ∧
    (∀ r, records.getLast? = some r →
      currentWeight records = some r.weight_kg ∧
      ∀ s ∈ records, s.recorded_date ≤ r.recorded_date) := by
  constructor
  · intro h; rw [h]; rfl
  · intro r hr
    constructor
    · rw [currentWeight, hr]; rfl
    · rcases List.getLast?_eq_some_iff.mp hr with ⟨ys, rfl⟩
      intro s hs'
      rcases List.mem_append.mp hs' with h | h
      · exact (List.pairwise_append.mp hs).2.2 s h r (List.mem_singleton_self r)
      · rw [List.mem_singleton.mp h]
  
/-- Claim C6 witness: on the singleton sorted table the current weight is the
record's own weight. -/
theorem currentWeight_spec_witness :
    currentWeight [({ weight_kg := 70, recorded_date := 1, notes := "" } : WeightRecord)]
      = some (70 : ℚ) :=
  ((currentWeight_spec
      [({ weight_kg := 70, recorded_date := 1, notes := "" } : WeightRecord)]
      (by simp)).2 { weight_kg := 70, recorded_date := 1, notes := "" } rfl).1

/-- Three-session table of the worked example for `caloriesByExercise`:
two Run sessions of 300 and 200 calories and one Swim session of 150. -/
def exampleSessions : List WorkoutSession :=
  [{ workout_date := 1, exercise_name := "Run", duration_minutes := 30,
     calories_burned := 300, intensity_level := "medium", category := "cardio" },
   { workout_date := 2, exercise_name := "Run", duration_minutes := 30,
     calories_burned := 200, intensity_level := "medium", category := "cardio" },
   { workout_date := 3, exercise_name := "Swim", duration_minutes := 30,
     calories_burned := 150, intensity_level := "low", category := "cardio" }]

/-- Claim C5: every entry of the calories-by-exercise mapping carries the sum
of `calories_burned` over that exercise's sessions, the entries are exactly
the distinct exercise names, they are ordered ascending by the summed value,
and on the worked example the mapping is [(Swim, 150), (Run, 500)]. -/
theorem caloriesByExercise_spec (sessions : List WorkoutSession) :
    (∀ p ∈ caloriesByExercise sessions, p.2 = sumCaloriesFor sessions p.1) ∧
    ((caloriesByExercise sessions).map Prod.fst).Perm
      (sessions.map (·.exercise_name)).dedup ∧
    (caloriesByExercise sessions).Pairwise (fun p q => p.2 ≤ q.2) ∧
    caloriesByExercise exampleSessions = [("Swim", 150), ("Run", 500)] := by
  refine ⟨?_, ?_, ?_, ?_⟩
  · intro p hp
    rw [caloriesByExercise, List.mem_insertionSort] at hp
    rcases List.mem_map.mp hp with ⟨n, _, rfl⟩
    rfl
  · have h := (List.perm_insertionSort (fun p q : String × ℤ => p.2 ≤ q.2)
      ((sessions.map (·.exercise_name)).dedup.map
        (fun n => (n, sumCaloriesFor sessions n)))).map Prod.fst
    rw [List.map_map] at h
    have hcomp : (Prod.fst ∘ fun n => (n, sumCaloriesFor sessions n)) = id := rfl
    rw [hcomp, List.map_id] at h
    rw [caloriesByExercise]
    exact h
  · rw [caloriesByExercise]
    exact List.sorted_insertionSort _ _
  · decide

/-- Claim C5 witness: on the worked example the entry (Swim, 150) is in the
mapping and its value is the summed calories of the Swim sessions. -/
theorem caloriesByExercise_spec_witness :
    ((("Swim" : String), (150 : ℤ)) ∈ caloriesByExercise exampleSessions) ∧
    ((("Swim" : String), (150 : ℤ)).2
      = sumCaloriesFor exampleSessions (("Swim" : String), (150 : ℤ)).1) :=
  ⟨by decide,
   (caloriesByExercise_spec exampleSessions).1 (("Swim" : String), (150 : ℤ)) (by decide)⟩

/-- Claim C7: every entry of the duration-by-day series carries the sum of
`duration_minutes` over that date's sessions, the dates appear in ascending
order, and every session's date appears in the series. -/
theorem durationByDay_spec (sessions : List WorkoutSession) :
    (∀ p ∈ durationByDay sessions, p.2 = sumDurationFor sessions p.1) ∧
    ((durationByDay sessions).map Prod.fst).Pairwise (· ≤ ·) ∧
    (∀ s ∈ sessions, s.workout_date ∈ (durationByDay sessions).map Prod.fst) := by
  refine ⟨?_, ?_, ?_⟩
  · intro p hp
    rw [durationByDay] at hp
    rcases List.mem_map.mp hp with ⟨d, _, rfl⟩
    rfl
  · rw [durationByDay, List.map_map]
    have h : (Prod.fst ∘ fun d => (d, sumDurationFor sessions d)) = id := rfl
    rw [h, List.map_id]
    exact List.sorted_insertionSort _ _
  · intro s hs
    rw [durationByDay, List.map_map]
    have h : (Prod.fst ∘ fun d => (d, sumDurationFor sessions d)) = id := rfl
    rw [h, List.map_id, List.mem_insertionSort, List.mem_dedup]
    exact List.mem_map.mpr ⟨s, hs, rfl⟩

/-- Claim C7 witness: on a one-session table the series holds the session's
date with its duration sum. -/
theorem durationByDay_spec_witness :
    (((1 : ℕ), (30 : ℤ)) ∈ durationByDay exampleSessions) ∧
    (((1 : ℕ), (30 : ℤ)).2 = sumDurationFor exampleSessions ((1 : ℕ), (30 : ℤ)).1) :=
  ⟨by decide,
   (durationByDay_spec exampleSessions).1 (((1 : ℕ), (30 : ℤ))) (by decide)⟩

/-- Claim C8: every aggregation yields its well-defined empty result on an
empty table: zero totals, empty mappings, or the `none` sentinel. -/
theorem emptyAggregates_spec :
    totalCaloriesBurned [] = 0 ∧ totalWorkouts [] = 0 ∧
    caloriesByExercise [] = [] ∧ durationByDay [] = [] ∧
    currentWeight [] = none ∧ weightNetChange [] = none ∧
    minWeight [] = none ∧ maxWeight [] = none ∧ activeGoalCount [] = 0 :=
  ⟨rfl, rfl, rfl, rfl, rfl, rfl, rfl, rfl, rfl⟩

/-- Claim C9: when no connection is obtained every read returns the empty
table and both writes return `false`; and when the INSERT raises (caught
generically) both writes also return `false`. -/
theorem dataAccessFailure_spec (user_id exercise_type_id : ℕ) (weight : ℚ)
    (date_recorded workout_date : ℕ) (duration calories : ℤ)
    (intensity notes : String) :
    load_users none = [] ∧
    load_weight_data none user_id = [] ∧
    load_workout_data none user_id = [] ∧
    load_goals none user_id = [] ∧
    load_exercise_types none = [] ∧
    (add_weight_record none user_id weight date_recorded notes).2 = false ∧
    (add_workout_session none user_id exercise_type_id duration calories intensity
      workout_date notes).2 = false ∧
    ∀ db : Database, db.insertFails = true →
      (add_weight_record (some db) user_id weight date_recorded notes).2 = false ∧
      (add_workout_session (some db) user_id exercise_type_id duration calories intensity
        workout_date notes).2 = false := by
  refine ⟨rfl, rfl, rfl, rfl, rfl, rfl, rfl, ?_⟩
  intro db hdb
  constructor
  · simp [add_weight_record, hdb]
  · simp [add_workout_session, hdb]

/-- Claim C9 witness: on a database whose INSERT raises, adding a weight
record reports failure. -/
theorem dataAccessFailure_spec_witness :
    ({ users := [], weight_records := [], workout_sessions := [],
       exercise_types := [], goals := [], insertFails := true } : Database).insertFails
      = true ∧
    (add_weight_record
      (some { users := [], weight_records := [], workout_sessions := [],
              exercise_types := [], goals := [], insertFails := true }) 1 70 1 "").2
      = false :=
  ⟨rfl,
   ((dataAccessFailure_spec 1 1 70 1 1 30 100 "low" "").2.2.2.2.2.2.2
      { users := [], weight_records := [], workout_sessions := [],
        exercise_types := [], goals := [], insertFails := true } rfl).1⟩

/-- Claim C10: the values of the calories-by-exercise mapping sum to the
total-calories-burned metric over the same table. -/
theorem caloriesByExercise_total_spec (sessions : List WorkoutSession) :
    ((caloriesByExercise sessions).map Prod.snd).sum = totalCaloriesBurned sessions := by
  have hperm : ((caloriesByExercise sessions).map Prod.snd).Perm
      (((sessions.map (·.exercise_name)).dedup.map
        (fun n => (n, sumCaloriesFor sessions n))).map Prod.snd) := by
    rw [caloriesByExercise]
    exact (List.perm_insertionSort _ _).map Prod.snd
  rw [hperm.sum_eq, List.map_map]
  have hcomp : (Prod.snd ∘ fun n => (n, sumCaloriesFor sessions n))
      = sumCaloriesFor sessions := rfl
  rw [hcomp]
  exact sum_fibers_eq_total _ _ (List.nodup_dedup _)
    (fun s hs => List.mem_dedup.mpr (List.mem_map.mpr ⟨s, hs, rfl⟩))
